import Mathlib

/-!
Shallow embedding of the predictive maintenance and route-analytics engine of
the AI-Powered Ship Management System (src/services/MaintenanceService.js,
src/services/RoutePlanningService.js, src/models/Maintenance.js).

JavaScript numbers are modelled as exact rationals; where JS produces NaN or
throws, the embedding makes this explicit (JSNum, Except). Dates are modelled
as millisecond timestamps, with calendar fields carried alongside where the
source reads them via Date accessors.
-/

namespace ShipSys

/-- Average weather readings stored on a route (weather.average). -/
structure WeatherAvg where
  windSpeed : ℚ
  waveHeight : ℚ
  temperature : ℚ
  deriving DecidableEq, Repr

/-- Route status enumeration from the Route schema. -/
inductive RouteStatus where
  | PLANNED
  | IN_PROGRESS
  | COMPLETED
  | CANCELLED
  deriving DecidableEq, Repr

/-- The fields of a Route document read by MaintenanceService.
`weather` is `some` exactly when both `route.weather` and
`route.weather.average` are populated (the guard `r.weather && r.weather.average`). -/
structure Route where
  status : RouteStatus
  distance : ℚ
  actualArrival : ℚ
  actualDeparture : ℚ
  weather : Option WeatherAvg
  deriving DecidableEq, Repr

/-- A maintenance history entry as read by predictNextMaintenance (only the
date is consulted). -/
structure MaintHistEntry where
  date : ℚ
  deriving DecidableEq, Repr

/-- The fields of a Ship document read by MaintenanceService. -/
structure Ship where
  engineHours : ℕ
  routes : List Route
  maintenanceHistory : List MaintHistEntry
  deriving DecidableEq, Repr

/-- engineHours factor of the bundle (calculateEngineHours output). -/
structure EngineHoursFactor where
  total : ℚ
  sinceLastMaintenance : ℚ
  hoursPerDay : ℚ
  deriving DecidableEq, Repr

/-- routeIntensity factor of the bundle (calculateRouteIntensity output). -/
structure RouteIntensity where
  averageDistance : ℚ
  averageSpeed : ℚ
  routesPerMonth : ℚ
  deriving DecidableEq, Repr

/-- The factor bundle consumed by calculateRiskScore, with every field present. -/
structure Factors where
  engineHours : EngineHoursFactor
  routeIntensity : RouteIntensity
  weatherImpact : ℚ
  lastMaintenanceAge : ℚ
  deriving DecidableEq, Repr

/-- calculateEngineHours from MaintenanceService: total, total mod 5000, and a
rough hours-per-day estimate guarded against an empty route list. -/
def calculateEngineHours (ship : Ship) : EngineHoursFactor :=
  { total := (ship.engineHours : ℚ)
    sinceLastMaintenance := ((ship.engineHours % 5000 : ℕ) : ℚ)
    hoursPerDay :=
      if ship.routes.length > 0 then
        (ship.engineHours : ℚ) / ((ship.routes.length : ℚ) * 30)
      else 0 }

/-- Descending order on actualArrival, the comparator
(a, b) =&gt; b.actualArrival - a.actualArrival used by the service sorts. -/
def arrDesc (a b : Route) : Prop := b.actualArrival ≤ a.actualArrival

instance : DecidableRel arrDesc := fun a b =>
  inferInstanceAs (Decidable (b.actualArrival ≤ a.actualArrival))

/-- calculateRouteIntensity from MaintenanceService: averages over the 10
most recently completed routes, all-zero when none qualify. -/
def calculateRouteIntensity (routes : List Route) : RouteIntensity :=
  if routes.length = 0 then
    { averageDistance := 0, averageSpeed := 0, routesPerMonth := 0 }
  else
    let recentRoutes :=
      ((routes.filter (fun r => r.status = RouteStatus.COMPLETED)).insertionSort arrDesc).take 10
    if recentRoutes.length = 0 then
      { averageDistance := 0, averageSpeed := 0, routesPerMonth := 0 }
    else
      let totalDistance := recentRoutes.foldl (fun sum r => sum + r.distance) 0
      let avgSpeed :=
        (recentRoutes.foldl (fun sum r =>
          let duration := (r.actualArrival - r.actualDeparture) / (1000 * 60 * 60)
          sum + (r.distance / duration)) 0) / (recentRoutes.length : ℚ)
      { averageDistance := totalDistance / (recentRoutes.length : ℚ)
        averageSpeed := avgSpeed
        routesPerMonth := (recentRoutes.length : ℚ) / 3 }

/-- Per-route weather severity used by calculateWeatherImpact:
(windSpeed/50 + waveHeight/10 + abs(temperature-20)/40) / 3. -/
def weatherSeverity (w : WeatherAvg) : ℚ :=
  ((w.windSpeed / 50) + (w.waveHeight / 10) + (|w.temperature - 20| / 40)) / 3

/-- calculateWeatherImpact from MaintenanceService: mean severity over the 10
most recently completed routes carrying weather averages; 0 if none qualify. -/
def calculateWeatherImpact (routes : List Route) : ℚ :=
  if routes.length = 0 then 0
  else
    let recentRoutes :=
      ((routes.filter (fun r =>
          r.status = RouteStatus.COMPLETED ∧ r.weather.isSome)).insertionSort arrDesc).take 10
    if recentRoutes.length = 0 then 0
    else
      (recentRoutes.foldl (fun sum route =>
        sum + (match route.weather with
               | some w => weatherSeverity w
               | none => 0)) 0) / (recentRoutes.length : ℚ)

/-- calculateRiskScore from MaintenanceService: weighted sum of capped scores
with weights 0.4 / 0.3 / 0.2 / 0.1; the weatherImpact term is NOT capped. -/
def calculateRiskScore (factors : Factors) : ℚ :=
  let engineHoursScore := min (factors.engineHours.sinceLastMaintenance / 5000) 1
  let routeIntensityScore := min (factors.routeIntensity.routesPerMonth / 10) 1
  let weatherImpactScore := factors.weatherImpact
  let ageScore := min (factors.lastMaintenanceAge / 180) 1
  engineHoursScore * (4/10) +
  routeIntensityScore * (3/10) +
  weatherImpactScore * (2/10) +
  ageScore * (1/10)

/-- JS Math.round: floor(x + 1/2). -/
def jsRound (q : ℚ) : ℤ := ⌊q + 1/2⌋

/-- calculateDaysUntilMaintenance from MaintenanceService:
max(30, round(180 * (1 - riskScore))). -/
def calculateDaysUntilMaintenance (riskScore : ℚ) : ℤ :=
  max 30 (jsRound (180 * (1 - riskScore)))

/-- Task status enumeration from the Maintenance schema task subdocuments. -/
inductive TaskStatus where
  | PENDING
  | IN_PROGRESS
  | COMPLETED
  | SKIPPED
  deriving DecidableEq, Repr

/-- A maintenance task as produced by generateMaintenanceTasks and consumed
by estimateMaintenanceCost and updateStatus. -/
structure MTask where
  name : String
  estimatedDuration : ℚ
  status : TaskStatus
  deriving DecidableEq, Repr

/-- generateMaintenanceTasks from MaintenanceService: three baseline tasks,
then conditional pushes for engine hours, weather impact and average speed.
The ship argument is present in the source signature but unused. -/
def generateMaintenanceTasks (_ship : Ship) (factors : Factors) : List MTask :=
  let tasks : List MTask :=
    [ { name := "Engine Inspection", estimatedDuration := 4, status := TaskStatus.PENDING },
      { name := "Hull Inspection", estimatedDuration := 3, status := TaskStatus.PENDING },
      { name := "Safety Equipment Check", estimatedDuration := 2, status := TaskStatus.PENDING } ]
  let tasks :=
    if factors.engineHours.sinceLastMaintenance > 4000 then
      tasks ++ [{ name := "Engine Oil Change", estimatedDuration := 2, status := TaskStatus.PENDING }]
    else tasks
  let tasks :=
    if factors.weatherImpact > 7/10 then
      tasks ++ [{ name := "Weather Damage Inspection", estimatedDuration := 3, status := TaskStatus.PENDING }]
    else tasks
  let tasks :=
    if factors.routeIntensity.averageSpeed > 20 then
      tasks ++ [{ name := "Propulsion System Check", estimatedDuration := 4, status := TaskStatus.PENDING }]
    else tasks
  tasks

/-- Per-task parts cost switch inside estimateMaintenanceCost. -/
def partsCostOf (name : String) : ℚ :=
  if name = "Engine Oil Change" then 500
  else if name = "Engine Inspection" then 300
  else if name = "Hull Inspection" then 200
  else 100

/-- estimateMaintenanceCost from MaintenanceService. The argument is an
Option to model the JS parameter: `none` is the undefined/null case caught by
the `!tasks` guard, which (like the empty list) returns the base cost 1000. -/
def estimateMaintenanceCost (tasks : Option (List MTask)) : ℚ :=
  match tasks with
  | none => 1000
  | some ts =>
    if ts.length = 0 then 1000
    else
      let baseCost : ℚ := 1000
      let laborCost := ts.foldl (fun sum task => sum + (task.estimatedDuration * 50)) 0
      let partsCost := ts.foldl (fun sum task => sum + partsCostOf task.name) 0
      baseCost + laborCost + partsCost

/-- Descending order on maintenance history dates, the comparator
(a, b) =&gt; b.date - a.date used by predictNextMaintenance. -/
def dateDesc (a b : MaintHistEntry) : Prop := b.date ≤ a.date

instance : DecidableRel dateDesc := fun a b =>
  inferInstanceAs (Decidable (b.date ≤ a.date))

/-- Result object of predictNextMaintenance. The source returns an object
with exactly the keys date, factors and riskScore. -/
structure Prediction where
  date : ℚ
  factors : Factors
  riskScore : ℚ
  deriving DecidableEq, Repr

/-- JS property access `nextMaintenance.tasks` performed by
scheduleMaintenance: the object returned by predictNextMaintenance carries
only the keys date, factors and riskScore, so reading `tasks` always yields
undefined, modelled as `none`. -/
def Prediction.tasksRead (_p : Prediction) : Option (List MTask) := none

/-- predictNextMaintenance from MaintenanceService, with `now` standing for
Date.now() in milliseconds. The next maintenance date is modelled as a
millisecond offset of daysUntilMaintenance days from now. -/
def predictNextMaintenance (now : ℚ) (ship : Ship) : Prediction :=
  let lastMaintenance :=
    if ship.maintenanceHistory.length > 0 then
      (ship.maintenanceHistory.insertionSort dateDesc).head?
    else none
  let factors : Factors :=
    { engineHours := calculateEngineHours ship
      routeIntensity := calculateRouteIntensity ship.routes
      weatherImpact := calculateWeatherImpact ship.routes
      lastMaintenanceAge :=
        match lastMaintenance with
        | some m => (now - m.date) / (1000 * 60 * 60 * 24)
        | none => 180 }
  let riskScore := calculateRiskScore factors
  let daysUntilMaintenance := calculateDaysUntilMaintenance riskScore
  { date := now + (daysUntilMaintenance : ℚ) * (1000 * 60 * 60 * 24)
    factors := factors
    riskScore := riskScore }

/-- The maintenance record created by scheduleMaintenance (the fields the
Maintenance.create call fills from computed data). -/
structure CreatedMaintenance where
  date : ℚ
  tasks : List MTask
  costEstimated : ℚ
  deriving DecidableEq, Repr

/-- scheduleMaintenance from MaintenanceService: the ship lookup result is
passed as an Option (none = not found, which throws), then the prediction
feeds
- tasks from generateMaintenanceTasks(ship, nextMaintenance.factors),
- cost.estimated from estimateMaintenanceCost(nextMaintenance.tasks), where
  nextMaintenance.tasks is the undefined property read Prediction.tasksRead. -/
def scheduleMaintenance (now : ℚ) (shipLookup : Option Ship) :
    Except String CreatedMaintenance :=
  match shipLookup with
  | none => Except.error "Ship not found"
  | some ship =>
    let nextMaintenance := predictNextMaintenance now ship
    Except.ok
      { date := nextMaintenance.date
        tasks := generateMaintenanceTasks ship nextMaintenance.factors
        costEstimated := estimateMaintenanceCost nextMaintenance.tasksRead }

/-- A JS value slot that may be undefined, null, or hold a value. -/
inductive JSOpt (α : Type) where
  | undef
  | null
  | val (a : α)
  deriving DecidableEq, Repr

/-- A JS number that may be NaN. -/
inductive JSNum where
  | nan
  | num (q : ℚ)
  deriving DecidableEq, Repr

/-- JS addition on numbers: NaN is absorbing. -/
def jsAdd : JSNum → JSNum → JSNum
  | JSNum.num a, JSNum.num b => JSNum.num (a + b)
  | _, _ => JSNum.nan

/-- JS multiplication on numbers: NaN is absorbing. -/
def jsMul : JSNum → JSNum → JSNum
  | JSNum.num a, JSNum.num b => JSNum.num (a * b)
  | _, _ => JSNum.nan

/-- A factor bundle as a caller may hand it over in JS: the routeIntensity
and weatherImpact slots may be undefined or null. -/
structure FactorsJS where
  engineHours : EngineHoursFactor
  routeIntensity : JSOpt RouteIntensity
  weatherImpact : JSOpt ℚ
  lastMaintenanceAge : ℚ
  deriving DecidableEq, Repr

/-- calculateRiskScore under JS semantics for absent optional sub-factors:
- reading routesPerMonth off an undefined or null routeIntensity throws a
  TypeError (modelled as Except.error);
- an undefined weatherImpact makes weatherImpactScore undefined, and
  undefined * 0.2 is NaN, which absorbs the whole sum;
- a null weatherImpact coerces to 0 in the multiplication.
On fully populated bundles this agrees with calculateRiskScore. -/
def calculateRiskScoreJS (factors : FactorsJS) : Except String JSNum :=
  let engineHoursScore := min (factors.engineHours.sinceLastMaintenance / 5000) 1
  match factors.routeIntensity with
  | JSOpt.undef => Except.error "TypeError"
  | JSOpt.null => Except.error "TypeError"
  | JSOpt.val ri =>
    let routeIntensityScore := min (ri.routesPerMonth / 10) 1
    let weatherImpactScore : JSNum :=
      match factors.weatherImpact with
      | JSOpt.undef => JSNum.nan
      | JSOpt.null => JSNum.num 0
      | JSOpt.val w => JSNum.num w
    let ageScore := min (factors.lastMaintenanceAge / 180) 1
    Except.ok
      (jsAdd
        (jsAdd
          (jsAdd (JSNum.num (engineHoursScore * (4/10)))
                 (JSNum.num (routeIntensityScore * (3/10))))
          (jsMul weatherImpactScore (JSNum.num (2/10))))
        (JSNum.num (ageScore * (1/10))))

/-- Maintenance record status enumeration from the Maintenance schema. -/
inductive MaintStatus where
  | SCHEDULED
  | IN_PROGRESS
  | COMPLETED
  | CANCELLED
  deriving DecidableEq, Repr

/-- The fields of a Maintenance document read by its updateStatus method. -/
structure MaintDoc where
  status : MaintStatus
  tasks : List MTask
  deriving DecidableEq, Repr

/-- The updateStatus instance method of the Maintenance model, as the pure
status it returns: empty task list returns the current status unchanged;
otherwise all-completed sets COMPLETED, else any in-progress sets
IN_PROGRESS, else the current status is returned. -/
def updateStatus (m : MaintDoc) : MaintStatus :=
  if m.tasks.length = 0 then m.status
  else
    let totalTasks := m.tasks.length
    let completedTasks := (m.tasks.filter (fun t => t.status = TaskStatus.COMPLETED)).length
    let inProgressTasks := (m.tasks.filter (fun t => t.status = TaskStatus.IN_PROGRESS)).length
    if completedTasks = totalTasks then MaintStatus.COMPLETED
    else if inProgressTasks > 0 then MaintStatus.IN_PROGRESS
    else m.status

/-- Calendar fields of a JS Date as read through getFullYear / getMonth /
getDate: month0 is the 0-based month, day the 1-based day of month. -/
structure SimpleDate where
  year : ℕ
  month0 : ℕ
  day : ℕ
  deriving DecidableEq, Repr

/-- The fields of a COMPLETED Route document read by the analytics functions
of RoutePlanningService. Timestamps are millisecond values; departureDate
carries the calendar fields of new Date(actualDeparture). -/
structure CompletedRoute where
  fuelEstimated : ℚ
  fuelActual : ℚ
  estimatedDeparture : ℚ
  estimatedArrival : ℚ
  actualDeparture : ℚ
  actualArrival : ℚ
  weather : WeatherAvg
  departureDate : SimpleDate
  deriving DecidableEq, Repr

/-- calculateAverageFuelEfficiency from RoutePlanningService:
mean of (estimated - actual) / estimated * 100, 0 on the empty list. -/
def calculateAverageFuelEfficiency (routes : List CompletedRoute) : ℚ :=
  if routes.length = 0 then 0
  else
    let efficiencies := routes.map (fun route =>
      (route.fuelEstimated - route.fuelActual) / route.fuelEstimated * 100)
    (efficiencies.foldl (fun sum eff => sum + eff) 0) / (routes.length : ℚ)

/-- calculateRouteOptimization from RoutePlanningService:
mean of (estimatedDuration - actualDuration) / estimatedDuration * 100,
0 on the empty list. -/
def calculateRouteOptimization (routes : List CompletedRoute) : ℚ :=
  if routes.length = 0 then 0
  else
    let optimizations := routes.map (fun route =>
      let actualDuration := (route.actualArrival - route.actualDeparture) / (1000 * 60 * 60)
      let estimatedDuration := (route.estimatedArrival - route.estimatedDeparture) / (1000 * 60 * 60)
      (estimatedDuration - actualDuration) / estimatedDuration * 100)
    (optimizations.foldl (fun sum opt => sum + opt) 0) / (routes.length : ℚ)

/-- calculatePerformanceScore from RoutePlanningService:
(fuelEfficiency fraction + time ratio) / 2 * 100. -/
def calculatePerformanceScore (route : CompletedRoute) : ℚ :=
  let fuelEfficiency :=
    (route.fuelEstimated - route.fuelActual) / route.fuelEstimated
  let timeEfficiency :=
    (route.estimatedArrival - route.estimatedDeparture) /
    (route.actualArrival - route.actualDeparture)
  (fuelEfficiency + timeEfficiency) / 2 * 100

/-- The value computed by calculateCorrelation, kept as the exact numerator
and squared denominator of the Pearson formula
r = (n Σxy - Σx Σy) / sqrt((n Σxx - (Σx)²)(n Σyy - (Σy)²)):
the JS result is num / sqrt(denSq), which is irrational in general, so the
pair is retained exactly and NaN-ness is decided from it. -/
structure CorrResult where
  num : ℚ
  denSq : ℚ
  deriving DecidableEq, Repr

/-- The JS division num / Math.sqrt(denSq) yields NaN exactly when the
radicand is negative (sqrt gives NaN) or when both numerator and denominator
are 0 (0/0). A zero denominator with nonzero numerator gives ±Infinity, and
a positive denominator a finite number. -/
def CorrResult.isNaN (c : CorrResult) : Bool :=
  if c.denSq < 0 then true
  else if c.denSq = 0 ∧ c.num = 0 then true
  else false

/-- calculateCorrelation from RoutePlanningService, as the exact
numerator/denominator pair of the Pearson coefficient it divides. The
index-coupled sum Σ x[i]*y[i] is taken over the zipped lists (the JS code
reads y[i] for each index of x; callers pass equal-length lists). -/
def calculateCorrelation (x y : List ℚ) : CorrResult :=
  let n : ℚ := (x.length : ℚ)
  let sum_x := x.foldl (fun a b => a + b) 0
  let sum_y := y.foldl (fun a b => a + b) 0
  let sum_xy := (x.zip y).foldl (fun a p => a + p.1 * p.2) 0
  let sum_xx := x.foldl (fun a b => a + b * b) 0
  let sum_yy := y.foldl (fun a b => a + b * b) 0
  { num := n * sum_xy - sum_x * sum_y
    denSq := (n * sum_xx - sum_x * sum_x) * (n * sum_yy - sum_y * sum_y) }

/-- Result of analyzeWeatherImpact: the two correlations it returns. -/
structure WeatherImpactResult where
  windSpeedCorrelation : CorrResult
  waveHeightCorrelation : CorrResult
  deriving DecidableEq, Repr

/-- analyzeWeatherImpact from RoutePlanningService: correlates wind speed and
wave height against the per-route performance score. -/
def analyzeWeatherImpact (routes : List CompletedRoute) : WeatherImpactResult :=
  let impacts := routes.map (fun route =>
    (route.weather.windSpeed, route.weather.waveHeight, calculatePerformanceScore route))
  { windSpeedCorrelation :=
      calculateCorrelation (impacts.map (fun i => i.1)) (impacts.map (fun i => i.2.2))
    waveHeightCorrelation :=
      calculateCorrelation (impacts.map (fun i => i.2.1)) (impacts.map (fun i => i.2.2)) }

/-- Timeframe selector of the trend analytics. -/
inductive Timeframe where
  | weekly
  | monthly
  | yearly
  deriving DecidableEq, Repr

/-- Period key built by groupRoutesByTimeframe from a departure date:
weekly is year-W ceil(day/7), monthly is year-(month+1) with NO zero
padding, yearly is the year; the switch default repeats the monthly key. -/
def periodKey (timeframe : Timeframe) (d : SimpleDate) : String :=
  match timeframe with
  | Timeframe.weekly => toString d.year ++ "-W" ++ toString ((d.day + 6) / 7)
  | Timeframe.monthly => toString d.year ++ "-" ++ toString (d.month0 + 1)
  | Timeframe.yearly => toString d.year

/-- Numeric value of a decimal digit string, most significant digit first. -/
def digitsToNat (cs : List Char) : ℕ :=
  cs.foldl (fun n c => n * 10 + (c.toNat - 48)) 0

/-- ECMAScript array-index property key test: a non-empty all-digit string
with no leading zero (except "0" itself) whose numeric value is below
2^32 - 1. Such keys are enumerated before all other string keys, in
ascending numeric order. -/
def isArrayIndexKey (s : String) : Bool :=
  match s.data with
  | [] => false
  | c :: cs =>
    (c :: cs).all Char.isDigit &&
    (decide (c ≠ '0') || cs.isEmpty) &&
    decide (digitsToNat (c :: cs) < 4294967295)

/-- Ascending numeric order on array-index entry keys. -/
def idxLE {α : Type} (a b : String × α) : Prop :=
  digitsToNat a.1.data ≤ digitsToNat b.1.data

instance {α : Type} : DecidableRel (@idxLE α) := fun a b =>
  inferInstanceAs (Decidable (digitsToNat a.1.data ≤ digitsToNat b.1.data))

instance {α : Type} : IsTotal (String × α) idxLE :=
  ⟨fun a b => Nat.le_total (digitsToNat a.1.data) (digitsToNat b.1.data)⟩

instance {α : Type} : IsTrans (String × α) idxLE :=
  ⟨fun _ _ _ hab hbc => Nat.le_trans hab hbc⟩

/-- Object.entries / OrdinaryOwnPropertyKeys enumeration order over an object
whose internal state is the creation-ordered entry list: array-index keys
come first in ascending numeric order, then the remaining string keys in
creation (insertion) order. -/
def jsObjectEntries {α : Type} (l : List (String × α)) : List (String × α) :=
  (l.filter (fun p => isArrayIndexKey p.1)).insertionSort idxLE ++
  l.filter (fun p => ! isArrayIndexKey p.1)

/-- Insertion into the accumulator object of groupRoutesByTimeframe. This
models the object's internal state: a JS object records string keys in
creation order, so a new key is appended at the end and an existing key has
the route appended to its bucket. Enumeration order of Object.entries over
this state is applied separately by jsObjectEntries. -/
def insertBucket (periods : List (String × List CompletedRoute)) (key : String)
    (route : CompletedRoute) : List (String × List CompletedRoute) :=
  match periods with
  | [] => [(key, [route])]
  | (k, rs) :: rest =>
    if k = key then (k, rs ++ [route]) :: rest
    else (k, rs) :: insertBucket rest key route

/-- groupRoutesByTimeframe from RoutePlanningService: buckets the routes by
period key. The result is the accumulator object's internal creation-ordered
entry list; consumers enumerate it through jsObjectEntries. -/
def groupRoutesByTimeframe (routes : List CompletedRoute) (timeframe : Timeframe) :
    List (String × List CompletedRoute) :=
  routes.foldl (fun periods route =>
    insertBucket periods (periodKey timeframe route.departureDate) route) []

/-- Metric selector of calculateTrend. -/
inductive TrendMetric where
  | fuelConsumption
  | duration
  | efficiency
  deriving DecidableEq, Repr

/-- One emitted trend bucket of calculateTrend. -/
structure TrendPoint where
  period : String
  value : ℚ
  deriving DecidableEq, Repr

/-- Per-bucket metric value computed inside calculateTrend. -/
def trendValue (metric : TrendMetric) (routes : List CompletedRoute) : ℚ :=
  match metric with
  | TrendMetric.fuelConsumption =>
    (routes.foldl (fun sum r => sum + r.fuelActual) 0) / (routes.length : ℚ)
  | TrendMetric.duration =>
    (routes.foldl (fun sum r =>
      sum + (r.actualArrival - r.actualDeparture) / (1000 * 60 * 60)) 0) / (routes.length : ℚ)
  | TrendMetric.efficiency => calculateAverageFuelEfficiency routes

/-- calculateTrend from RoutePlanningService: maps Object.entries of the
period buckets with NO sorting step of its own, so the emitted order is the
JS enumeration order: array-index keys ascending numerically first, then the
remaining keys in first-encounter order. -/
def calculateTrend (periods : List (String × List CompletedRoute))
    (metric : TrendMetric) : List TrendPoint :=
  (jsObjectEntries periods).map (fun p => { period := p.1, value := trendValue metric p.2 })

/-- Result object of analyzeTrends: one trend list per metric. -/
structure TrendsResult where
  fuelConsumption : List TrendPoint
  duration : List TrendPoint
  efficiency : List TrendPoint
  deriving DecidableEq, Repr

/-- analyzeTrends from RoutePlanningService. -/
def analyzeTrends (routes : List CompletedRoute) (timeframe : Timeframe) : TrendsResult :=
  let periods := groupRoutesByTimeframe routes timeframe
  { fuelConsumption := calculateTrend periods TrendMetric.fuelConsumption
    duration := calculateTrend periods TrendMetric.duration
    efficiency := calculateTrend periods TrendMetric.efficiency }

/-- Result object of getRouteAnalytics. -/
structure RouteAnalytics where
  totalRoutes : ℕ
  averageFuelEfficiency : ℚ
  routeOptimization : ℚ
  weatherImpact : WeatherImpactResult
  trends : TrendsResult
  deriving DecidableEq, Repr

/-- getRouteAnalytics from RoutePlanningService, applied to the list of the
ship's COMPLETED routes that the database query returns. -/
def getRouteAnalytics (routes : List CompletedRoute) (timeframe : Timeframe) :
    RouteAnalytics :=
  { totalRoutes := routes.length
    averageFuelEfficiency := calculateAverageFuelEfficiency routes
    routeOptimization := calculateRouteOptimization routes
    weatherImpact := analyzeWeatherImpact routes
    trends := analyzeTrends routes timeframe }

/-- The fields of a completed Maintenance record read by
calculateMaintenanceTrends: actual cost, start/completion timestamps in
milliseconds, and the calendar fields of new Date(completedAt). -/
structure CompletedMaint where
  costActual : ℚ
  startedAt : ℚ
  completedAt : ℚ
  completedDate : SimpleDate
  deriving DecidableEq, Repr

/-- String(n).padStart(2, "0") for the 1-based month number. -/
def pad2 (n : ℕ) : String :=
  if n < 10 then "0" ++ toString n else toString n

/-- Month key built by calculateMaintenanceTrends:
year-month with the month zero-padded to two digits. -/
def monthKey (d : SimpleDate) : String :=
  toString d.year ++ "-" ++ pad2 (d.month0 + 1)

/-- Per-month accumulator of calculateMaintenanceTrends. -/
structure MonthAgg where
  cost : ℚ
  duration : ℚ
  count : ℕ
  deriving DecidableEq, Repr

/-- Folds one maintenance record into the per-month accumulator object,
preserving JS object key insertion order. -/
def insertMonthAgg (acc : List (String × MonthAgg)) (key : String)
    (m : CompletedMaint) : List (String × MonthAgg) :=
  let dur := (m.completedAt - m.startedAt) / (1000 * 60 * 60)
  match acc with
  | [] => [(key, { cost := m.costActual, duration := dur, count := 1 })]
  | (k, a) :: rest =>
    if k = key then
      (k, { cost := a.cost + m.costActual, duration := a.duration + dur,
            count := a.count + 1 }) :: rest
    else (k, a) :: insertMonthAgg rest key m

/-- Ordering on accumulator entries by month key, the
([a], [b]) =&gt; a.localeCompare(b) comparator of calculateMaintenanceTrends
(for these digit-and-dash keys localeCompare agrees with ≤ on strings). -/
def monthKeyLE (a b : String × MonthAgg) : Prop := a.1 ≤ b.1

instance : DecidableRel monthKeyLE := fun a b =>
  inferInstanceAs (Decidable (a.1 ≤ b.1))

instance : IsTotal (String × MonthAgg) monthKeyLE :=
  ⟨fun a b => le_total a.1 b.1⟩

instance : IsTrans (String × MonthAgg) monthKeyLE :=
  ⟨fun _ _ _ hab hbc => le_trans hab hbc⟩

/-- One emitted bucket of calculateMaintenanceTrends. -/
structure MonthTrend where
  month : String
  averageCost : ℚ
  averageDuration : ℚ
  maintenanceCount : ℕ
  deriving DecidableEq, Repr

/-- calculateMaintenanceTrends from MaintenanceService: accumulates cost,
duration and count per month key, enumerates the entries (Object.entries),
sorts them by key ascending, and emits the per-month averages. -/
def calculateMaintenanceTrends (maintenanceHistory : List CompletedMaint) :
    List MonthTrend :=
  let monthlyData := maintenanceHistory.foldl (fun acc m =>
    insertMonthAgg acc (monthKey m.completedDate) m) []
  ((jsObjectEntries monthlyData).insertionSort monthKeyLE).map (fun p =>
    { month := p.1
      averageCost := p.2.cost / (p.2.count : ℚ)
      averageDuration := p.2.duration / (p.2.count : ℚ)
      maintenanceCount := p.2.count })

/-! Helper lemmas shared by the claim theorems. -/

/-- A foldl accumulating `s + f b` equals the start value plus the sum of the
mapped list. -/
theorem foldl_add_map_eq {α : Type} (f : α → ℚ) (l : List α) (s : ℚ) :
    l.foldl (fun a b => a + f b) s = s + (l.map f).sum := by
  induction l generalizing s with
  | nil => simp
  | cons x xs ih => simp [List.foldl_cons, ih, List.map_cons, List.sum_cons]; ring

/-- JS Math.round is monotone. -/
theorem jsRound_mono {a b : ℚ} (h : a ≤ b) : jsRound a ≤ jsRound b :=
  Int.floor_le_floor (by linarith)

/-- The parts cost lookup is at least 100 on every task name. -/
theorem partsCostOf_ge (name : String) : 100 ≤ partsCostOf name := by
  unfold partsCostOf
  split
  · norm_num
  · split
    · norm_num
    · split <;> norm_num

end ShipSys

open ShipSys

/-- C4: for every ship accepted by scheduleMaintenance, the created
record's cost.estimated is exactly the base cost 1000, independent of the
generated task list, because the cost estimator is called on
nextMaintenance.tasks, a key the prediction object does not carry. -/
theorem scheduleMaintenance_cost_always_base (now : ℚ) (ship : Ship) :
    (scheduleMaintenance now (some ship)).map CreatedMaintenance.costEstimated =
      Except.ok 1000 := rfl

/-- C5: the maintenance interval equals max(30, round(180 * (1 - risk))),
lies in [30, 180] on risks in [0, 1], is 180 at risk 0 and 30 at risk 1, and
is monotonically non-increasing in the risk score. -/
theorem daysUntilMaintenance_bounds_and_monotone (r₁ r₂ : ℚ)
    (h0 : 0 ≤ r₁) (h12 : r₁ ≤ r₂) (_h1 : r₂ ≤ 1) :
    calculateDaysUntilMaintenance r₁ = max 30 (jsRound (180 * (1 - r₁))) ∧
    30 ≤ calculateDaysUntilMaintenance r₁ ∧
    calculateDaysUntilMaintenance r₁ ≤ 180 ∧
    calculateDaysUntilMaintenance 0 = 180 ∧
    calculateDaysUntilMaintenance 1 = 30 ∧
    calculateDaysUntilMaintenance r₂ ≤ calculateDaysUntilMaintenance r₁ := by
  have h180 : jsRound (180 : ℚ) = 180 := by
    unfold jsRound
    norm_num
  refine ⟨rfl, le_max_left _ _, ?_, ?_, ?_, ?_⟩
  · have hle : jsRound (180 * (1 - r₁)) ≤ jsRound 180 := jsRound_mono (by linarith)
    exact max_le (by norm_num) (by rw [h180] at hle; exact hle)
  · unfold calculateDaysUntilMaintenance
    norm_num [h180]
  · unfold calculateDaysUntilMaintenance jsRound
    norm_num
  · exact max_le_max le_rfl (jsRound_mono (by linarith))

/-- C5 witness: the interval theorem applied at risks 1/4 ≤ 1/2. -/
theorem daysUntilMaintenance_witness :
    calculateDaysUntilMaintenance (1/4 : ℚ) = max 30 (jsRound (180 * (1 - 1/4))) ∧
    30 ≤ calculateDaysUntilMaintenance (1/4 : ℚ) ∧
    calculateDaysUntilMaintenance (1/4 : ℚ) ≤ 180 ∧
    calculateDaysUntilMaintenance 0 = 180 ∧
    calculateDaysUntilMaintenance 1 = 30 ∧
    calculateDaysUntilMaintenance (1/2 : ℚ) ≤ calculateDaysUntilMaintenance (1/4 : ℚ) :=
  daysUntilMaintenance_bounds_and_monotone (1/4) (1/2)
    (by norm_num) (by norm_num) (by norm_num)

/-- C6: estimateMaintenanceCost is base cost 1000 plus 50 per estimated
duration hour plus the fixed parts lookup per task name; the empty list
yields exactly 1000; the result is never below 1000 for non-negative
durations; and the single Safety Equipment Check task of 2 hours costs 1200. -/
theorem estimateMaintenanceCost_formula (ts : List MTask)
    (h : ∀ t ∈ ts, 0 ≤ t.estimatedDuration) :
    estimateMaintenanceCost (some ts) =
      1000 + (ts.map (fun t => t.estimatedDuration * 50)).sum
           + (ts.map (fun t => partsCostOf t.name)).sum ∧
    1000 ≤ estimateMaintenanceCost (some ts) ∧
    estimateMaintenanceCost (some []) = 1000 ∧
    estimateMaintenanceCost
      (some [{ name := "Safety Equipment Check", estimatedDuration := 2,
               status := TaskStatus.PENDING }]) = 1200 := by
  have hflab := foldl_add_map_eq (fun t : MTask => t.estimatedDuration * 50) ts 0
  have hfpar := foldl_add_map_eq (fun t : MTask => partsCostOf t.name) ts 0
  have heq : estimateMaintenanceCost (some ts) =
      1000 + (ts.map (fun t => t.estimatedDuration * 50)).sum
           + (ts.map (fun t => partsCostOf t.name)).sum := by
    unfold estimateMaintenanceCost
    rcases ts with _ | ⟨t, ts⟩
    · simp
    · simp only [List.length_cons]
      rw [if_neg (by simp)]
      rw [hflab, hfpar]
      ring
  refine ⟨heq, ?_, by simp [estimateMaintenanceCost], ?_⟩
  · rw [heq]
    have h₁ : 0 ≤ (ts.map (fun t => t.estimatedDuration * 50)).sum := by
      apply List.sum_nonneg
      intro q hq
      rcases List.mem_map.mp hq with ⟨t, ht, rfl⟩
      have := h t ht
      positivity
    have h₂ : 0 ≤ (ts.map (fun t => partsCostOf t.name)).sum := by
      apply List.sum_nonneg
      intro q hq
      rcases List.mem_map.mp hq with ⟨t, _, rfl⟩
      linarith [partsCostOf_ge t.name]
    linarith
  · simp [estimateMaintenanceCost, partsCostOf]
    norm_num

/-- C6 witness: the cost theorem applied to the two-hour Engine Oil Change
singleton list, whose hypothesis holds by computation. -/
theorem estimateMaintenanceCost_witness :
    estimateMaintenanceCost
      (some [{ name := "Engine Oil Change", estimatedDuration := 2,
               status := TaskStatus.PENDING }]) =
      1000 + ([({ name := "Engine Oil Change", estimatedDuration := 2,
                  status := TaskStatus.PENDING } : MTask)].map
                (fun t => t.estimatedDuration * 50)).sum
           + ([({ name := "Engine Oil Change", estimatedDuration := 2,
                  status := TaskStatus.PENDING } : MTask)].map
                (fun t => partsCostOf t.name)).sum ∧
    1000 ≤ estimateMaintenanceCost
      (some [{ name := "Engine Oil Change", estimatedDuration := 2,
               status := TaskStatus.PENDING }]) ∧
    estimateMaintenanceCost (some []) = 1000 ∧
    estimateMaintenanceCost
      (some [{ name := "Safety Equipment Check", estimatedDuration := 2,
               status := TaskStatus.PENDING }]) = 1200 :=
  estimateMaintenanceCost_formula _ (by decide)

/-- C7: the generated task list is exactly the three baseline tasks in fixed
order, followed by Engine Oil Change iff sinceLastMaintenance exceeds 4000,
then Weather Damage Inspection iff weatherImpact exceeds 0.7, then Propulsion
System Check iff averageSpeed exceeds 20, and every task starts PENDING. -/
theorem generateMaintenanceTasks_structure (ship : Ship) (f : Factors) :
    generateMaintenanceTasks ship f =
      [ { name := "Engine Inspection", estimatedDuration := 4, status := TaskStatus.PENDING },
        { name := "Hull Inspection", estimatedDuration := 3, status := TaskStatus.PENDING },
        { name := "Safety Equipment Check", estimatedDuration := 2, status := TaskStatus.PENDING } ]
      ++ (if f.engineHours.sinceLastMaintenance > 4000 then
            [{ name := "Engine Oil Change", estimatedDuration := 2, status := TaskStatus.PENDING }]
          else [])
      ++ (if f.weatherImpact > 7/10 then
            [{ name := "Weather Damage Inspection", estimatedDuration := 3, status := TaskStatus.PENDING }]
          else [])
      ++ (if f.routeIntensity.averageSpeed > 20 then
            [{ name := "Propulsion System Check", estimatedDuration := 4, status := TaskStatus.PENDING }]
          else [])
    ∧ ∀ t ∈ generateMaintenanceTasks ship f, t.status = TaskStatus.PENDING := by
  constructor
  · unfold generateMaintenanceTasks
    split_ifs <;> simp
  · intro t ht
    unfold generateMaintenanceTasks at ht
    split_ifs at ht <;> simp at ht <;> casesm* _ ∨ _ <;> subst_vars <;> rfl

/-- C10 counterexample: on the empty task list every task is vacuously
COMPLETED, yet updateStatus returns the current status SCHEDULED unchanged
instead of COMPLETED. -/
theorem updateStatus_empty_not_completed :
    updateStatus { status := MaintStatus.SCHEDULED, tasks := [] } = MaintStatus.SCHEDULED ∧
    (∀ t ∈ ([] : List MTask), t.status = TaskStatus.COMPLETED) ∧
    updateStatus { status := MaintStatus.SCHEDULED, tasks := [] } ≠ MaintStatus.COMPLETED := by
  refine ⟨rfl, ?_, by simp [updateStatus]⟩
  intro t ht
  cases ht

/-- C10 amended: updateStatus yields COMPLETED iff the task list is non-empty
and all tasks are COMPLETED, IN_PROGRESS if the list is non-empty, not all
tasks are COMPLETED and some task is IN_PROGRESS, and otherwise — including
on the empty task list, which returns early — leaves the current status
unchanged. -/
theorem updateStatus_characterization (m : MaintDoc) :
    updateStatus m =
      (if m.tasks = [] then m.status
       else if ∀ t ∈ m.tasks, t.status = TaskStatus.COMPLETED then MaintStatus.COMPLETED
       else if ∃ t ∈ m.tasks, t.status = TaskStatus.IN_PROGRESS then MaintStatus.IN_PROGRESS
       else m.status) := by
  unfold updateStatus
  by_cases h0 : m.tasks = []
  · simp [h0]
  · rw [if_neg h0, if_neg (by simpa [List.length_eq_zero] using h0)]
    by_cases hall : ∀ t ∈ m.tasks, t.status = TaskStatus.COMPLETED
    · have hlen : (m.tasks.filter (fun t => t.status = TaskStatus.COMPLETED)).length =
          m.tasks.length := by
        rw [List.filter_length_eq_length]
        simpa using hall
      simp only [hlen, eq_self_iff_true, if_true, ite_true]
      rw [if_pos hall]
    · have hlen : (m.tasks.filter (fun t => t.status = TaskStatus.COMPLETED)).length ≠
          m.tasks.length := by
        intro hc
        exact hall (by simpa using List.filter_length_eq_length.mp hc)
      rw [if_neg hlen, if_neg hall]
      by_cases hex : ∃ t ∈ m.tasks, t.status = TaskStatus.IN_PROGRESS
      · have hpos : 0 < (m.tasks.filter (fun t => t.status = TaskStatus.IN_PROGRESS)).length := by
          simp only [List.length_pos, Ne, List.filter_eq_nil_iff]
          push_neg
          simpa using hex
        rw [if_pos hpos, if_pos hex]
      · have hzero : ¬ 0 < (m.tasks.filter (fun t => t.status = TaskStatus.IN_PROGRESS)).length := by
          simp only [List.length_pos, Ne, List.filter_eq_nil_iff]
          push_neg at hex ⊢
          simpa using hex
        rw [if_neg hzero, if_neg hex]

/-- C1 counterexample: a single completed route with windSpeed 100, wave
height 20 and temperature 100 gives calculateWeatherImpact 2; feeding that
unclamped value into calculateRiskScore together with maxed (and non-negative)
remaining factors yields 6/5, which exceeds 1. -/
theorem riskScore_exceeds_one :
    calculateWeatherImpact
      [{ status := RouteStatus.COMPLETED, distance := 100, actualArrival := 2000,
         actualDeparture := 1000,
         weather := some { windSpeed := 100, waveHeight := 20, temperature := 100 } }] = 2 ∧
    calculateRiskScore
      { engineHours := { total := 5000, sinceLastMaintenance := 5000, hoursPerDay := 0 },
        routeIntensity := { averageDistance := 0, averageSpeed := 0, routesPerMonth := 10 },
        weatherImpact :=
          calculateWeatherImpact
            [{ status := RouteStatus.COMPLETED, distance := 100, actualArrival := 2000,
               actualDeparture := 1000,
               weather := some { windSpeed := 100, waveHeight := 20, temperature := 100 } }],
        lastMaintenanceAge := 180 } = 6/5 ∧
    ¬ (calculateRiskScore
      { engineHours := { total := 5000, sinceLastMaintenance := 5000, hoursPerDay := 0 },
        routeIntensity := { averageDistance := 0, averageSpeed := 0, routesPerMonth := 10 },
        weatherImpact :=
          calculateWeatherImpact
            [{ status := RouteStatus.COMPLETED, distance := 100, actualArrival := 2000,
               actualDeparture := 1000,
               weather := some { windSpeed := 100, waveHeight := 20, temperature := 100 } }],
        lastMaintenanceAge := 180 } ≤ 1) := by
  have hw : calculateWeatherImpact
      [{ status := RouteStatus.COMPLETED, distance := 100, actualArrival := 2000,
         actualDeparture := 1000,
         weather := some { windSpeed := 100, waveHeight := 20, temperature := 100 } }] = 2 := by
    simp [calculateWeatherImpact, weatherSeverity, List.insertionSort, List.orderedInsert, arrDesc]
    norm_num
  refine ⟨hw, ?_, ?_⟩ <;> rw [hw]
  · simp [calculateRiskScore]
    norm_num [min_def]
  · have : calculateRiskScore
      { engineHours := { total := 5000, sinceLastMaintenance := 5000, hoursPerDay := 0 },
        routeIntensity := { averageDistance := 0, averageSpeed := 0, routesPerMonth := 10 },
        weatherImpact := 2, lastMaintenanceAge := 180 } = 6/5 := by
      simp [calculateRiskScore]
      norm_num [min_def]
    rw [this]
    norm_num

/-- C1 amended: on factor bundles with all fields present and non-negative,
calculateRiskScore is non-negative and at most 0.8 + 0.2 * weatherImpact; it
is bounded by 1 whenever the weatherImpact factor is at most 1 (as it is when
every sampled route has windSpeed ≤ 50, waveHeight ≤ 10 and temperature
within 40 of 20), but not in general, since the weatherImpact term enters the
weighted sum unclamped. -/
theorem riskScore_bounds_amended (f : Factors)
    (h1 : 0 ≤ f.engineHours.sinceLastMaintenance)
    (h2 : 0 ≤ f.routeIntensity.routesPerMonth)
    (h3 : 0 ≤ f.weatherImpact)
    (h4 : 0 ≤ f.lastMaintenanceAge) :
    0 ≤ calculateRiskScore f ∧
    calculateRiskScore f ≤ 8/10 + f.weatherImpact * (2/10) ∧
    (f.weatherImpact ≤ 1 → calculateRiskScore f ≤ 1) := by
  unfold calculateRiskScore
  have he0 : (0:ℚ) ≤ min (f.engineHours.sinceLastMaintenance / 5000) 1 :=
    le_min (by positivity) (by norm_num)
  have he1 : min (f.engineHours.sinceLastMaintenance / 5000) 1 ≤ 1 := min_le_right _ _
  have hr0 : (0:ℚ) ≤ min (f.routeIntensity.routesPerMonth / 10) 1 :=
    le_min (by positivity) (by norm_num)
  have hr1 : min (f.routeIntensity.routesPerMonth / 10) 1 ≤ 1 := min_le_right _ _
  have ha0 : (0:ℚ) ≤ min (f.lastMaintenanceAge / 180) 1 :=
    le_min (by positivity) (by norm_num)
  have ha1 : min (f.lastMaintenanceAge / 180) 1 ≤ 1 := min_le_right _ _
  refine ⟨by linarith, by linarith, fun hw => by linarith⟩

/-- C1 witness: the amended bound theorem applied to a concrete bundle with
weatherImpact 1/2 and all hypotheses discharged numerically. -/
theorem riskScore_bounds_witness :
    0 ≤ calculateRiskScore
      { engineHours := { total := 100, sinceLastMaintenance := 100, hoursPerDay := 0 },
        routeIntensity := { averageDistance := 5, averageSpeed := 10, routesPerMonth := 2 },
        weatherImpact := 1/2, lastMaintenanceAge := 90 } ∧
    calculateRiskScore
      { engineHours := { total := 100, sinceLastMaintenance := 100, hoursPerDay := 0 },
        routeIntensity := { averageDistance := 5, averageSpeed := 10, routesPerMonth := 2 },
        weatherImpact := 1/2, lastMaintenanceAge := 90 } ≤ 8/10 + (1/2) * (2/10) ∧
    ((1:ℚ)/2 ≤ 1 → calculateRiskScore
      { engineHours := { total := 100, sinceLastMaintenance := 100, hoursPerDay := 0 },
        routeIntensity := { averageDistance := 5, averageSpeed := 10, routesPerMonth := 2 },
        weatherImpact := 1/2, lastMaintenanceAge := 90 } ≤ 1) :=
  riskScore_bounds_amended
    { engineHours := { total := 100, sinceLastMaintenance := 100, hoursPerDay := 0 },
      routeIntensity := { averageDistance := 5, averageSpeed := 10, routesPerMonth := 2 },
      weatherImpact := 1/2, lastMaintenanceAge := 90 }
    (by norm_num) (by norm_num) (by norm_num) (by norm_num)

/-- Folding addition over a rational list equals the start value plus the sum. -/
theorem foldl_add_eq (l : List ℚ) (s : ℚ) :
    l.foldl (fun a b => a + b) s = s + l.sum := by
  induction l generalizing s with
  | nil => simp
  | cons x xs ih => simp [List.foldl_cons, ih]; ring

/-- Folding addition of squares equals the start value plus the mapped sum. -/
theorem foldl_addsq_eq (l : List ℚ) (s : ℚ) :
    l.foldl (fun a b => a + b * b) s = s + (l.map (fun b => b * b)).sum := by
  induction l generalizing s with
  | nil => simp
  | cons x xs ih => simp [List.foldl_cons, ih]; ring

/-- Folding addition of pairwise products equals the start value plus the
mapped sum. -/
theorem foldl_zipmul_eq (l : List (ℚ × ℚ)) (s : ℚ) :
    l.foldl (fun a p => a + p.1 * p.2) s = s + (l.map (fun p => p.1 * p.2)).sum := by
  induction l generalizing s with
  | nil => simp
  | cons x xs ih => simp [List.foldl_cons, ih]; ring

/-- The index-coupled product sum of a constant sequence against y is the
constant times the sum of y. -/
theorem zip_replicate_mul_sum (c : ℚ) (y : List ℚ) :
    (((List.replicate y.length c).zip y).map (fun p => p.1 * p.2)).sum = c * y.sum := by
  induction y with
  | nil => simp
  | cons a ys ih => simp [List.replicate_succ, ih]; ring

/-- C2: on a zero-variance first sequence (a constant sequence of any length,
including the empty one) against any equal-length sequence, both the Pearson
numerator and the squared denominator computed by calculateCorrelation vanish,
so the JS division is 0 / sqrt 0 = 0 / 0, which is NaN: the function returns
raw NaN to its consumers rather than any sentinel. -/
theorem correlation_zero_variance_nan (c : ℚ) (y : List ℚ) :
    (calculateCorrelation (List.replicate y.length c) y).isNaN = true := by
  unfold calculateCorrelation
  have hsx := foldl_add_eq (List.replicate y.length c) 0
  have hsy := foldl_add_eq y 0
  have hsxx := foldl_addsq_eq (List.replicate y.length c) 0
  have hsyy := foldl_addsq_eq y 0
  have hsxy := foldl_zipmul_eq ((List.replicate y.length c).zip y) 0
  simp only [hsx, hsy, hsxx, hsyy, hsxy, zero_add, List.length_replicate,
    List.sum_replicate, List.map_replicate, zip_replicate_mul_sum, smul_eq_mul] at *
  simp only [nsmul_eq_mul]
  have hnum : (y.length : ℚ) * (c * y.sum) - (y.length : ℚ) * c * y.sum = 0 := by ring
  have hden : ((y.length : ℚ) * ((y.length : ℚ) * (c * c)) -
      (y.length : ℚ) * c * ((y.length : ℚ) * c)) *
      ((y.length : ℚ) * (List.map (fun b => b * b) y).sum - y.sum * y.sum) = 0 := by ring
  simp [CorrResult.isNaN, hnum, hden]

/-- C3: getRouteAnalytics on the empty route set returns totalRoutes 0,
zero fuel efficiency and route optimization, empty trend lists for all three
metrics, and raises no error, BUT both weatherImpact correlations are the
0/0 division of calculateCorrelation on empty sequences, i.e. NaN, not 0. -/
theorem getRouteAnalytics_empty_fields (tf : Timeframe) :
    (getRouteAnalytics [] tf).totalRoutes = 0 ∧
    (getRouteAnalytics [] tf).averageFuelEfficiency = 0 ∧
    (getRouteAnalytics [] tf).routeOptimization = 0 ∧
    (getRouteAnalytics [] tf).trends.fuelConsumption = [] ∧
    (getRouteAnalytics [] tf).trends.duration = [] ∧
    (getRouteAnalytics [] tf).trends.efficiency = [] ∧
    (getRouteAnalytics [] tf).weatherImpact.windSpeedCorrelation.isNaN = true ∧
    (getRouteAnalytics [] tf).weatherImpact.waveHeightCorrelation.isNaN = true := by
  cases tf <;>
    simp [getRouteAnalytics, calculateAverageFuelEfficiency, calculateRouteOptimization,
      analyzeTrends, groupRoutesByTimeframe, calculateTrend, jsObjectEntries,
      List.insertionSort, analyzeWeatherImpact, calculateCorrelation, CorrResult.isNaN]

/-- C8 counterexample: a factor bundle whose routeIntensity slot is absent
makes calculateRiskScore read routesPerMonth off undefined, which throws a
TypeError instead of returning normally with a zero contribution. -/
theorem riskScoreJS_missing_routeIntensity_throws :
    calculateRiskScoreJS
      { engineHours := { total := 100, sinceLastMaintenance := 100, hoursPerDay := 0 },
        routeIntensity := JSOpt.undef, weatherImpact := JSOpt.val 0,
        lastMaintenanceAge := 10 } = Except.error "TypeError" := rfl

/-- C8 amended: an absent or null routeIntensity makes calculateRiskScore
throw a TypeError; an undefined weatherImpact yields a NaN result (no throw,
but not a zero contribution either); a null weatherImpact coerces to 0 and
the call returns the risk score with a zero weather contribution; and fully
populated bundles agree with the total model calculateRiskScore. -/
theorem riskScoreJS_optional_semantics (eh : EngineHoursFactor)
    (ri : RouteIntensity) (w : ℚ) (age : ℚ) (wslot : JSOpt ℚ) :
    calculateRiskScoreJS
      { engineHours := eh, routeIntensity := JSOpt.undef,
        weatherImpact := wslot, lastMaintenanceAge := age } = Except.error "TypeError" ∧
    calculateRiskScoreJS
      { engineHours := eh, routeIntensity := JSOpt.null,
        weatherImpact := wslot, lastMaintenanceAge := age } = Except.error "TypeError" ∧
    calculateRiskScoreJS
      { engineHours := eh, routeIntensity := JSOpt.val ri,
        weatherImpact := JSOpt.undef, lastMaintenanceAge := age } = Except.ok JSNum.nan ∧
    calculateRiskScoreJS
      { engineHours := eh, routeIntensity := JSOpt.val ri,
        weatherImpact := JSOpt.null, lastMaintenanceAge := age } =
      Except.ok (JSNum.num (calculateRiskScore
        { engineHours := eh, routeIntensity := ri, weatherImpact := 0,
          lastMaintenanceAge := age })) ∧
    calculateRiskScoreJS
      { engineHours := eh, routeIntensity := JSOpt.val ri,
        weatherImpact := JSOpt.val w, lastMaintenanceAge := age } =
      Except.ok (JSNum.num (calculateRiskScore
        { engineHours := eh, routeIntensity := ri, weatherImpact := w,
          lastMaintenanceAge := age })) := by
  refine ⟨rfl, rfl, rfl, ?_, ?_⟩ <;>
    simp [calculateRiskScoreJS, calculateRiskScore, jsAdd, jsMul]


/-- The fuel-indexed digit printer of Nat.repr distributes over its
accumulator. -/
theorem toDigitsCore_append (fuel : ℕ) :
    ∀ (n : ℕ) (acc : List Char),
      Nat.toDigitsCore 10 fuel n acc = Nat.toDigitsCore 10 fuel n [] ++ acc := by
  induction fuel with
  | zero => intro n acc; simp [Nat.toDigitsCore]
  | succ f ih =>
    intro n acc
    simp only [Nat.toDigitsCore]
    by_cases h : n / 10 = 0
    · simp [h]
    · rw [if_neg h, if_neg h, ih (n / 10) (Nat.digitChar (n % 10) :: acc),
        ih (n / 10) [Nat.digitChar (n % 10)], List.append_assoc]
      simp

/-- With positive fuel the digit printer emits at least one character. -/
theorem toDigitsCore_ne_nil (fuel n : ℕ) (acc : List Char) (h : 0 < fuel) :
    Nat.toDigitsCore 10 fuel n acc ≠ [] := by
  cases fuel with
  | zero => omega
  | succ f =>
    simp only [Nat.toDigitsCore]
    by_cases h10 : n / 10 = 0
    · simp [h10]
    · rw [if_neg h10, toDigitsCore_append]
      simp

/-- Decimal digit characters: each is a digit, decodes back to its value,
and only 0 prints the zero character. -/
theorem digitChar_facts :
    ∀ m, m < 10 → (Nat.digitChar m).isDigit = true ∧ (Nat.digitChar m).toNat - 48 = m ∧
      (0 < m → Nat.digitChar m ≠ '0') := by decide

/-- With sufficient fuel the printed digit string decodes to the number. -/
theorem digitsToNat_toDigitsCore (fuel : ℕ) :
    ∀ n : ℕ, n < fuel → digitsToNat (Nat.toDigitsCore 10 fuel n []) = n := by
  induction fuel with
  | zero => omega
  | succ f ih =>
    intro n hn
    simp only [Nat.toDigitsCore]
    by_cases h : n / 10 = 0
    · have hlt : n < 10 := by omega
      rw [if_pos h, Nat.mod_eq_of_lt hlt]
      have hd := (digitChar_facts n hlt).2.1
      simp [digitsToNat, hd]
    · rw [if_neg h, toDigitsCore_append]
      have hdiv : n / 10 < n := Nat.div_lt_self (by omega) (by norm_num)
      have hih := ih (n / 10) (by omega)
      have hmod := (digitChar_facts (n % 10) (Nat.mod_lt n (by omega))).2.1
      unfold digitsToNat at hih ⊢
      rw [List.foldl_append]
      simp only [List.foldl_cons, List.foldl_nil]
      rw [hih, hmod]
      omega

/-- Every character printed by the digit printer is a decimal digit. -/
theorem toDigitsCore_all_digits (fuel : ℕ) :
    ∀ (n : ℕ), ∀ c ∈ Nat.toDigitsCore 10 fuel n [], c.isDigit = true := by
  induction fuel with
  | zero => intro n c hc; simp [Nat.toDigitsCore] at hc
  | succ f ih =>
    intro n c hc
    simp only [Nat.toDigitsCore] at hc
    by_cases h : n / 10 = 0
    · rw [if_pos h] at hc
      simp at hc
      subst hc
      exact (digitChar_facts (n % 10) (Nat.mod_lt n (by omega))).1
    · rw [if_neg h, toDigitsCore_append] at hc
      rcases List.mem_append.mp hc with hc | hc
      · exact ih (n / 10) c hc
      · simp at hc
        subst hc
        exact (digitChar_facts (n % 10) (Nat.mod_lt n (by omega))).1

/-- The printed digit string of a positive number has no leading zero. -/
theorem toDigitsCore_head_ne_zero (fuel : ℕ) :
    ∀ (n : ℕ), 0 < n → n < fuel → ∀ c cs,
      Nat.toDigitsCore 10 fuel n [] = c :: cs → c ≠ '0' := by
  induction fuel with
  | zero => omega
  | succ f ih =>
    intro n hn hfuel c cs hc
    simp only [Nat.toDigitsCore] at hc
    by_cases h : n / 10 = 0
    · have hlt : n < 10 := by omega
      rw [if_pos h, Nat.mod_eq_of_lt hlt] at hc
      have := (digitChar_facts n hlt).2.2 hn
      simp at hc
      rw [← hc.1]
      exact this
    · rw [if_neg h, toDigitsCore_append] at hc
      have hlt : n / 10 < n := Nat.div_lt_self (by omega) (by norm_num)
      have hne : Nat.toDigitsCore 10 f (n / 10) [] ≠ [] :=
        toDigitsCore_ne_nil f (n / 10) [] (by omega)
      rcases List.exists_cons_of_ne_nil hne with ⟨d, ds, hds⟩
      rw [hds] at hc
      simp at hc
      have hd := ih (n / 10) (by omega) (by omega) d ds hds
      rw [← hc.1]
      exact hd

/-- toString on a natural number is Nat.repr. -/
theorem toString_nat_eq (n : ℕ) : toString n = Nat.repr n := rfl

/-- The character data of Nat.repr is the digit printer run on fuel n+1. -/
theorem repr_data_eq (n : ℕ) : (Nat.repr n).data = Nat.toDigitsCore 10 (n + 1) n [] := rfl

/-- The decimal print of any n below 2^32 - 1 is an ECMAScript array-index
property key: non-empty, all digits, no leading zero, value in range. -/
theorem isArrayIndexKey_repr (n : ℕ) (h : n < 4294967295) :
    isArrayIndexKey (Nat.repr n) = true := by
  by_cases h0 : n = 0
  · subst h0; decide
  · have hne : Nat.toDigitsCore 10 (n + 1) n [] ≠ [] :=
      toDigitsCore_ne_nil (n + 1) n [] (by omega)
    rcases List.exists_cons_of_ne_nil hne with ⟨c, cs, hcs⟩
    have hall : (c :: cs).all Char.isDigit = true := by
      rw [List.all_eq_true]
      intro x hx
      exact toDigitsCore_all_digits (n + 1) n x (by rw [hcs]; exact hx)
    have hc0 : c ≠ '0' :=
      toDigitsCore_head_ne_zero (n + 1) n (by omega) (by omega) c cs hcs
    have hval : digitsToNat (c :: cs) = n := by
      rw [← hcs]
      exact digitsToNat_toDigitsCore (n + 1) n (by omega)
    unfold isArrayIndexKey
    rw [repr_data_eq, hcs]
    simp [hall, hc0, hval, h]

/-- A key containing a dash is not an array-index key. -/
theorem isArrayIndexKey_of_dash (s : String) (h : ('-' : Char) ∈ s.data) :
    isArrayIndexKey s = false := by
  rcases hdata : s.data with _ | ⟨c, cs⟩
  · simp [hdata] at h
  · rw [hdata] at h
    have hall : (c :: cs).all Char.isDigit = false := by
      rw [List.all_eq_false]
      exact ⟨'-', h, by decide⟩
    unfold isArrayIndexKey
    rw [hdata]
    simp [hall]

/-- Monthly period keys carry a dash, so they are never array-index keys. -/
theorem periodKey_monthly_not_index (d : SimpleDate) :
    isArrayIndexKey (periodKey Timeframe.monthly d) = false := by
  apply isArrayIndexKey_of_dash
  show ('-' : Char) ∈ (toString d.year ++ "-" ++ toString (d.month0 + 1)).data
  simp [String.data_append]

/-- Weekly period keys carry a dash, so they are never array-index keys. -/
theorem periodKey_weekly_not_index (d : SimpleDate) :
    isArrayIndexKey (periodKey Timeframe.weekly d) = false := by
  apply isArrayIndexKey_of_dash
  show ('-' : Char) ∈ (toString d.year ++ "-W" ++ toString ((d.day + 6) / 7)).data
  simp [String.data_append]

/-- Yearly period keys of in-range years are array-index keys. -/
theorem periodKey_yearly_index (d : SimpleDate) (h : d.year < 4294967295) :
    isArrayIndexKey (periodKey Timeframe.yearly d) = true :=
  isArrayIndexKey_repr d.year h

/-- insertBucket preserves a predicate holding of the inserted key and of
every key already present. -/
theorem insertBucket_key_pred (Q : String → Prop) (ps : List (String × List CompletedRoute))
    (key : String) (route : CompletedRoute) (hk : Q key) (hps : ∀ p ∈ ps, Q p.1) :
    ∀ p ∈ insertBucket ps key route, Q p.1 := by
  induction ps with
  | nil => intro p hp; simp [insertBucket] at hp; rw [hp]; exact hk
  | cons q rest ih =>
    intro p hp
    simp only [insertBucket] at hp
    by_cases h : q.1 = key
    · rw [if_pos h] at hp
      rcases List.mem_cons.mp hp with hp | hp
      · rw [hp]; exact hps q (by simp)
      · exact hps p (List.mem_cons_of_mem _ hp)
    · rw [if_neg h] at hp
      rcases List.mem_cons.mp hp with hp | hp
      · rw [hp]; exact hps q (by simp)
      · exact ih (fun r hr => hps r (List.mem_cons_of_mem _ hr)) p hp

/-- Folding insertBucket over routes preserves a key predicate that holds of
all inserted period keys and of the initial object. -/
theorem foldl_insertBucket_key_pred (Q : String → Prop) (tf : Timeframe) :
    ∀ (routes : List CompletedRoute) (init : List (String × List CompletedRoute)),
      (∀ r ∈ routes, Q (periodKey tf r.departureDate)) →
      (∀ p ∈ init, Q p.1) →
      ∀ p ∈ routes.foldl (fun periods route =>
          insertBucket periods (periodKey tf route.departureDate) route) init, Q p.1 := by
  intro routes
  induction routes with
  | nil =>
    intro init _ hinit p hp
    exact hinit p hp
  | cons r rest ih =>
    intro init hr hinit p hp
    simp only [List.foldl_cons] at hp
    exact ih _ (fun x hx => hr x (List.mem_cons_of_mem _ hx))
      (insertBucket_key_pred Q init _ r (hr r (by simp)) hinit) p hp

/-- Every key of the grouped object satisfies any predicate satisfied by the
period keys of the grouped routes. -/
theorem groupRoutes_key_pred (Q : String → Prop) (tf : Timeframe)
    (routes : List CompletedRoute)
    (hkeys : ∀ r ∈ routes, Q (periodKey tf r.departureDate)) :
    ∀ p ∈ groupRoutesByTimeframe routes tf, Q p.1 :=
  foldl_insertBucket_key_pred Q tf routes [] hkeys (by simp)

/-- Enumeration is the identity on objects with no array-index key. -/
theorem jsObjectEntries_no_index {α : Type} (l : List (String × α))
    (h : ∀ p ∈ l, isArrayIndexKey p.1 = false) : jsObjectEntries l = l := by
  unfold jsObjectEntries
  have h1 : l.filter (fun p => isArrayIndexKey p.1) = [] := by
    rw [List.filter_eq_nil_iff]
    intro p hp
    simp [h p hp]
  have h2 : l.filter (fun p => ! isArrayIndexKey p.1) = l := by
    rw [List.filter_eq_self]
    intro p hp
    simp [h p hp]
  rw [h1, h2]
  simp [List.insertionSort]

/-- Enumeration sorts an all-array-index-key object numerically ascending. -/
theorem jsObjectEntries_all_index {α : Type} (l : List (String × α))
    (h : ∀ p ∈ l, isArrayIndexKey p.1 = true) :
    jsObjectEntries l = l.insertionSort idxLE := by
  unfold jsObjectEntries
  have h1 : l.filter (fun p => isArrayIndexKey p.1) = l := by
    rw [List.filter_eq_self]
    intro p hp
    simp [h p hp]
  have h2 : l.filter (fun p => ! isArrayIndexKey p.1) = [] := by
    rw [List.filter_eq_nil_iff]
    intro p hp
    simp [h p hp]
  rw [h1, h2, List.append_nil]

/-- C9 counterexample: two completed routes departing March and February
2024, given in the arrival-descending order the analytics query produces,
make calculateTrend emit the monthly buckets 2024-3 then 2024-2. Monthly keys
contain a dash, so they are ordinary string keys that Object.entries
enumerates in first-encounter order: the emission is not sorted ascending by
period key, and the keys are not zero-padded. -/
theorem calculateTrend_not_sorted :
    (calculateTrend
      (groupRoutesByTimeframe
        [ { fuelEstimated := 120, fuelActual := 100, estimatedDeparture := 0,
            estimatedArrival := 10, actualDeparture := 0, actualArrival := 10,
            weather := { windSpeed := 1, waveHeight := 1, temperature := 20 },
            departureDate := { year := 2024, month0 := 2, day := 15 } },
          { fuelEstimated := 120, fuelActual := 200, estimatedDeparture := 0,
            estimatedArrival := 10, actualDeparture := 0, actualArrival := 10,
            weather := { windSpeed := 1, waveHeight := 1, temperature := 20 },
            departureDate := { year := 2024, month0 := 1, day := 15 } } ]
        Timeframe.monthly)
      TrendMetric.fuelConsumption).map TrendPoint.period = ["2024-3", "2024-2"] ∧
    ¬ List.Pairwise (fun p q : TrendPoint => p.period ≤ q.period)
      (calculateTrend
        (groupRoutesByTimeframe
          [ { fuelEstimated := 120, fuelActual := 100, estimatedDeparture := 0,
              estimatedArrival := 10, actualDeparture := 0, actualArrival := 10,
              weather := { windSpeed := 1, waveHeight := 1, temperature := 20 },
              departureDate := { year := 2024, month0 := 2, day := 15 } },
            { fuelEstimated := 120, fuelActual := 200, estimatedDeparture := 0,
              estimatedArrival := 10, actualDeparture := 0, actualArrival := 10,
              weather := { windSpeed := 1, waveHeight := 1, temperature := 20 },
              departureDate := { year := 2024, month0 := 1, day := 15 } } ]
          Timeframe.monthly)
        TrendMetric.fuelConsumption) := by
  have hmap : (calculateTrend
      (groupRoutesByTimeframe
        [ { fuelEstimated := 120, fuelActual := 100, estimatedDeparture := 0,
            estimatedArrival := 10, actualDeparture := 0, actualArrival := 10,
            weather := { windSpeed := 1, waveHeight := 1, temperature := 20 },
            departureDate := { year := 2024, month0 := 2, day := 15 } },
          { fuelEstimated := 120, fuelActual := 200, estimatedDeparture := 0,
            estimatedArrival := 10, actualDeparture := 0, actualArrival := 10,
            weather := { windSpeed := 1, waveHeight := 1, temperature := 20 },
            departureDate := { year := 2024, month0 := 1, day := 15 } } ]
        Timeframe.monthly)
      TrendMetric.fuelConsumption).map TrendPoint.period = ["2024-3", "2024-2"] := by rfl
  refine ⟨hmap, fun h => ?_⟩
  have hmapped : List.Pairwise (fun a b : String => a ≤ b) ["2024-3", "2024-2"] := by
    rw [← hmap]
    exact h.map TrendPoint.period (fun a b hab => hab)
  have hle : ("2024-3" : String) ≤ "2024-2" :=
    (List.pairwise_cons.mp hmapped).1 "2024-2" (by simp)
  have hlt : ("2024-2" : String) < "2024-3" := by
    rw [String.lt_iff_toList_lt]
    decide
  exact absurd (lt_of_lt_of_le hlt hle) (lt_irrefl _)

/-- C9 amended: the maintenance trends of calculateMaintenanceTrends are
emitted sorted ascending by their zero-padded month key; the route trends of
calculateTrend carry no sorting step of their own, so they come out in JS
object key enumeration order over the grouped buckets: monthly and weekly
keys contain a dash, are never array-index keys, and are emitted unsorted in
first-encounter order of the input with unpadded months, while yearly keys
are the array-index year numerals, which Object.entries enumerates in
ascending numeric order, so yearly buckets are emitted ascending by year. -/
theorem trend_emission_order :
    (∀ history : List CompletedMaint,
      List.Pairwise (fun a b : MonthTrend => a.month ≤ b.month)
        (calculateMaintenanceTrends history)) ∧
    (∀ (routes : List CompletedRoute) (tf : Timeframe) (metric : TrendMetric),
      (calculateTrend (groupRoutesByTimeframe routes tf) metric).map TrendPoint.period =
        (jsObjectEntries (groupRoutesByTimeframe routes tf)).map Prod.fst) ∧
    (∀ (routes : List CompletedRoute) (metric : TrendMetric),
      (calculateTrend (groupRoutesByTimeframe routes Timeframe.monthly) metric).map
          TrendPoint.period =
        (groupRoutesByTimeframe routes Timeframe.monthly).map Prod.fst) ∧
    (∀ (routes : List CompletedRoute) (metric : TrendMetric),
      (calculateTrend (groupRoutesByTimeframe routes Timeframe.weekly) metric).map
          TrendPoint.period =
        (groupRoutesByTimeframe routes Timeframe.weekly).map Prod.fst) ∧
    (∀ (routes : List CompletedRoute) (metric : TrendMetric),
      (∀ r ∈ routes, r.departureDate.year < 4294967295) →
      List.Pairwise (fun p q : TrendPoint =>
          digitsToNat p.period.data ≤ digitsToNat q.period.data)
        (calculateTrend (groupRoutesByTimeframe routes Timeframe.yearly) metric)) := by
  refine ⟨?_, ?_, ?_, ?_, ?_⟩
  · intro history
    unfold calculateMaintenanceTrends
    have hs : List.Sorted monthKeyLE
        ((jsObjectEntries (history.foldl (fun acc m =>
          insertMonthAgg acc (monthKey m.completedDate) m) [])).insertionSort monthKeyLE) :=
      List.sorted_insertionSort monthKeyLE _
    exact hs.map _ (fun a b hab => hab)
  · intro routes tf metric
    simp [calculateTrend, List.map_map]
  · intro routes metric
    have hkeys : ∀ p ∈ groupRoutesByTimeframe routes Timeframe.monthly,
        isArrayIndexKey p.1 = false :=
      groupRoutes_key_pred (fun k => isArrayIndexKey k = false) Timeframe.monthly routes
        (fun r _ => periodKey_monthly_not_index r.departureDate)
    simp [calculateTrend, List.map_map, jsObjectEntries_no_index _ hkeys]
  · intro routes metric
    have hkeys : ∀ p ∈ groupRoutesByTimeframe routes Timeframe.weekly,
        isArrayIndexKey p.1 = false :=
      groupRoutes_key_pred (fun k => isArrayIndexKey k = false) Timeframe.weekly routes
        (fun r _ => periodKey_weekly_not_index r.departureDate)
    simp [calculateTrend, List.map_map, jsObjectEntries_no_index _ hkeys]
  · intro routes metric hyears
    have hkeys : ∀ p ∈ groupRoutesByTimeframe routes Timeframe.yearly,
        isArrayIndexKey p.1 = true :=
      groupRoutes_key_pred (fun k => isArrayIndexKey k = true) Timeframe.yearly routes
        (fun r hr => periodKey_yearly_index r.departureDate (hyears r hr))
    unfold calculateTrend
    rw [jsObjectEntries_all_index _ hkeys]
    have hs : List.Sorted idxLE
        ((groupRoutesByTimeframe routes Timeframe.yearly).insertionSort idxLE) :=
      List.sorted_insertionSort idxLE _
    exact hs.map _ (fun a b hab => hab)

/-- C9 witness: the emission-order theorem applied at two concrete routes
departing in 2024 and 2023, given most recent first; its year-range
hypothesis is discharged by computation, and the yearly buckets come out in
ascending numeric key order. -/
theorem trend_emission_order_witness :
    List.Pairwise (fun p q : TrendPoint =>
        digitsToNat p.period.data ≤ digitsToNat q.period.data)
      (calculateTrend
        (groupRoutesByTimeframe
          [ { fuelEstimated := 120, fuelActual := 100, estimatedDeparture := 0,
              estimatedArrival := 10, actualDeparture := 0, actualArrival := 10,
              weather := { windSpeed := 1, waveHeight := 1, temperature := 20 },
              departureDate := { year := 2024, month0 := 0, day := 15 } },
            { fuelEstimated := 120, fuelActual := 200, estimatedDeparture := 0,
              estimatedArrival := 10, actualDeparture := 0, actualArrival := 10,
              weather := { windSpeed := 1, waveHeight := 1, temperature := 20 },
              departureDate := { year := 2023, month0 := 0, day := 15 } } ]
          Timeframe.yearly)
        TrendMetric.fuelConsumption) :=
  trend_emission_order.2.2.2.2 _ TrendMetric.fuelConsumption (by decide)
